import Mathlib

set_option linter.unusedVariables false
set_option maxRecDepth 8192

/-!
Verification of the Outlook-Telegram-Notifier core (src/main.go) against its
natural-language specification.  The Go functions relevant to the claims are
shallowly embedded below: pure functions become Lean functions over
`String`/`List Char` (a Go `[]rune` is the `data` field of a Lean `String`),
Go `int` becomes `Int`, the in-memory dedup map becomes a total function
`String → Bool` (a missing key reads as `false`, as in Go), code that can
panic returns `Option`, and the scheduler concurrency is modelled as a
labelled transition system.
-/

namespace OTN

/-! ## String helpers (html.EscapeString, truncateByRunes — main.go:1198-1204) -/

/-- One character of Go `html.EscapeString`: the five special characters are
replaced by their HTML entities, every other character is kept. -/
def escapeChar (c : Char) : List Char :=
  if c = '&' then "&amp;".data
  else if c = Char.ofNat 39 then "&#39;".data
  else if c = '<' then "&lt;".data
  else if c = '>' then "&gt;".data
  else if c = Char.ofNat 34 then "&#34;".data
  else [c]

/-- Go `html.EscapeString`, applied characterwise in one pass. -/
def escapeString (s : String) : String :=
  String.mk (s.data.flatMap escapeChar)

/-- `truncateByRunes` (main.go:1198-1204) for the non-negative bounds its two
call sites pass: identity when the rune count fits, otherwise the first
`maxRunes` runes followed by the literal ellipsis. -/
def truncateByRunesCore (text : String) (maxRunes : Nat) : String :=
  if text.data.length ≤ maxRunes then text
  else String.mk (text.data.take maxRunes) ++ "..."

/-- `truncateByRunes` with its actual Go signature (`maxRunes int`).
For a negative bound the guard `len(runes) <= maxRunes` is false and the Go
slice expression `runes[:maxRunes]` panics with a slice-bounds error; that
panic is modelled as `none`. -/
def truncateByRunes (text : String) (maxRunes : Int) : Option String :=
  if (text.data.length : Int) ≤ maxRunes then some text
  else if maxRunes < 0 then none
  else some (String.mk (text.data.take maxRunes.toNat) ++ "...")

/-! ## Configuration (struct Config / struct Folder — main.go:41-61) -/

structure TelegramSettings where
  botToken : String
  defaultChatID : String
  useEmojis : Bool
deriving DecidableEq, Repr

structure Folder where
  name : String
  chatID : String
  messageLength : Int
deriving DecidableEq, Repr

structure Config where
  telegram : TelegramSettings
  checkIntervalSeconds : Int
  loggingEnabled : Bool
  fileLoggingEnabled : Bool
  startMinimized : Bool
  cutText : String
  folders : List Folder
  ip : String
  port : Int
deriving DecidableEq, Repr

/-! ## Formatter (formatMessage — main.go:1150-1196)

The Go function builds the message in four sequential stages over one
`strings.Builder`; each stage is named here so the claims about individual
stages can be stated: header (lines 1158-1167), body section (1169-1177),
cut-marker (1179-1191), global cap (1193-1195).  `formatMessage` is their
composition. -/

/-- The three escaped header lines (main.go:1153-1167). -/
def msgHeader (cfg : Config) (folder sender subject : String) : String :=
  if cfg.telegram.useEmojis then
    "📥 <b>Папка:</b> " ++ escapeString folder ++ "\n" ++
    "👤 <b>Отправитель:</b> " ++ escapeString sender ++ "\n" ++
    "📧 <b>Тема:</b> " ++ escapeString subject ++ "\n"
  else
    "<b>Папка:</b> " ++ escapeString folder ++ "\n" ++
    "<b>Отправитель:</b> " ++ escapeString sender ++ "\n" ++
    "<b>Тема:</b> " ++ escapeString subject ++ "\n"

/-- The escaped (and, for a positive bound, truncated) body text that is
appended when `maxLength ≠ 0` (main.go:1170-1175). -/
def bodySection (body : String) (maxLength : Int) : String :=
  if maxLength > 0 then truncateByRunesCore (escapeString body) maxLength.toNat
  else escapeString body

/-- The composed header+body before the cut-marker stage
(main.go:1158-1177). -/
def preCutMessage (cfg : Config) (folder sender subject body : String)
    (maxLength : Int) : String :=
  if maxLength ≠ 0 then
    msgHeader cfg folder sender subject ++ "<i>Сообщение:</i>\n" ++
      bodySection body maxLength
  else msgHeader cfg folder sender subject

/-- Unicode simple case folding (CaseFolding.txt statuses C and S, Unicode
version 14.0.0), the folding Go applies to a case-insensitive literal
pattern: `(?i)` expands each literal rune to its `unicode.SimpleFold`
orbit, and two runes lie in the same orbit exactly when their simple case
folds coincide — the fold image is the orbit's canonical member (Cyrillic А
folds to а, Kelvin K to k, ſ to s, Σ and ς to σ, …).  Each branch below is
one maximal arithmetic run of the folding table: a condition
`lo ≤ r ∧ r ≤ hi` (with `(r - lo) % 2 = 0` for the alternating
upper/lower runs) mapping `r` to `r ± delta`; every code point matching no
run folds to itself. -/
def simpleCaseFold (r : Nat) : Nat :=
  if r < 0x41 then r
  else if 0x41 ≤ r ∧ r ≤ 0x5A then r + 32
  else if r = 0xB5 then 0x3BC
  else if 0xC0 ≤ r ∧ r ≤ 0xD6 then r + 32
  else if 0xD8 ≤ r ∧ r ≤ 0xDE then r + 32
  else if 0x100 ≤ r ∧ r ≤ 0x12E ∧ (r - 0x100) % 2 = 0 then r + 1
  else if 0x132 ≤ r ∧ r ≤ 0x136 ∧ (r - 0x132) % 2 = 0 then r + 1
  else if 0x139 ≤ r ∧ r ≤ 0x147 ∧ (r - 0x139) % 2 = 0 then r + 1
  else if 0x14A ≤ r ∧ r ≤ 0x176 ∧ (r - 0x14A) % 2 = 0 then r + 1
  else if r = 0x178 then 0xFF
  else if 0x179 ≤ r ∧ r ≤ 0x17D ∧ (r - 0x179) % 2 = 0 then r + 1
  else if r = 0x17F then 0x73
  else if r = 0x181 then 0x253
  else if 0x182 ≤ r ∧ r ≤ 0x184 ∧ (r - 0x182) % 2 = 0 then r + 1
  else if r = 0x186 then 0x254
  else if r = 0x187 then 0x188
  else if 0x189 ≤ r ∧ r ≤ 0x18A then r + 205
  else if r = 0x18B then 0x18C
  else if r = 0x18E then 0x1DD
  else if r = 0x18F then 0x259
  else if r = 0x190 then 0x25B
  else if r = 0x191 then 0x192
  else if r = 0x193 then 0x260
  else if r = 0x194 then 0x263
  else if r = 0x196 then 0x269
  else if r = 0x197 then 0x268
  else if r = 0x198 then 0x199
  else if r = 0x19C then 0x26F
  else if r = 0x19D then 0x272
  else if r = 0x19F then 0x275
  else if 0x1A0 ≤ r ∧ r ≤ 0x1A4 ∧ (r - 0x1A0) % 2 = 0 then r + 1
  else if r = 0x1A6 then 0x280
  else if r = 0x1A7 then 0x1A8
  else if r = 0x1A9 then 0x283
  else if r = 0x1AC then 0x1AD
  else if r = 0x1AE then 0x288
  else if r = 0x1AF then 0x1B0
  else if 0x1B1 ≤ r ∧ r ≤ 0x1B2 then r + 217
  else if 0x1B3 ≤ r ∧ r ≤ 0x1B5 ∧ (r - 0x1B3) % 2 = 0 then r + 1
  else if r = 0x1B7 then 0x292
  else if r = 0x1B8 then 0x1B9
  else if r = 0x1BC then 0x1BD
  else if r = 0x1C4 then 0x1C6
  else if r = 0x1C5 then 0x1C6
  else if r = 0x1C7 then 0x1C9
  else if r = 0x1C8 then 0x1C9
  else if r = 0x1CA then 0x1CC
  else if 0x1CB ≤ r ∧ r ≤ 0x1DB ∧ (r - 0x1CB) % 2 = 0 then r + 1
  else if 0x1DE ≤ r ∧ r ≤ 0x1EE ∧ (r - 0x1DE) % 2 = 0 then r + 1
  else if r = 0x1F1 then 0x1F3
  else if 0x1F2 ≤ r ∧ r ≤ 0x1F4 ∧ (r - 0x1F2) % 2 = 0 then r + 1
  else if r = 0x1F6 then 0x195
  else if r = 0x1F7 then 0x1BF
  else if 0x1F8 ≤ r ∧ r ≤ 0x21E ∧ (r - 0x1F8) % 2 = 0 then r + 1
  else if r = 0x220 then 0x19E
  else if 0x222 ≤ r ∧ r ≤ 0x232 ∧ (r - 0x222) % 2 = 0 then r + 1
  else if r = 0x23A then 0x2C65
  else if r = 0x23B then 0x23C
  else if r = 0x23D then 0x19A
  else if r = 0x23E then 0x2C66
  else if r = 0x241 then 0x242
  else if r = 0x243 then 0x180
  else if r = 0x244 then 0x289
  else if r = 0x245 then 0x28C
  else if 0x246 ≤ r ∧ r ≤ 0x24E ∧ (r - 0x246) % 2 = 0 then r + 1
  else if r = 0x345 then 0x3B9
  else if 0x370 ≤ r ∧ r ≤ 0x372 ∧ (r - 0x370) % 2 = 0 then r + 1
  else if r = 0x376 then 0x377
  else if r = 0x37F then 0x3F3
  else if r = 0x386 then 0x3AC
  else if 0x388 ≤ r ∧ r ≤ 0x38A then r + 37
  else if r = 0x38C then 0x3CC
  else if 0x38E ≤ r ∧ r ≤ 0x38F then r + 63
  else if 0x391 ≤ r ∧ r ≤ 0x3A1 then r + 32
  else if 0x3A3 ≤ r ∧ r ≤ 0x3AB then r + 32
  else if r = 0x3C2 then 0x3C3
  else if r = 0x3CF then 0x3D7
  else if r = 0x3D0 then 0x3B2
  else if r = 0x3D1 then 0x3B8
  else if r = 0x3D5 then 0x3C6
  else if r = 0x3D6 then 0x3C0
  else if 0x3D8 ≤ r ∧ r ≤ 0x3EE ∧ (r - 0x3D8) % 2 = 0 then r + 1
  else if r = 0x3F0 then 0x3BA
  else if r = 0x3F1 then 0x3C1
  else if r = 0x3F4 then 0x3B8
  else if r = 0x3F5 then 0x3B5
  else if r = 0x3F7 then 0x3F8
  else if r = 0x3F9 then 0x3F2
  else if r = 0x3FA then 0x3FB
  else if 0x3FD ≤ r ∧ r ≤ 0x3FF then r - 130
  else if 0x400 ≤ r ∧ r ≤ 0x40F then r + 80
  else if 0x410 ≤ r ∧ r ≤ 0x42F then r + 32
  else if 0x460 ≤ r ∧ r ≤ 0x480 ∧ (r - 0x460) % 2 = 0 then r + 1
  else if 0x48A ≤ r ∧ r ≤ 0x4BE ∧ (r - 0x48A) % 2 = 0 then r + 1
  else if r = 0x4C0 then 0x4CF
  else if 0x4C1 ≤ r ∧ r ≤ 0x4CD ∧ (r - 0x4C1) % 2 = 0 then r + 1
  else if 0x4D0 ≤ r ∧ r ≤ 0x52E ∧ (r - 0x4D0) % 2 = 0 then r + 1
  else if 0x531 ≤ r ∧ r ≤ 0x556 then r + 48
  else if 0x10A0 ≤ r ∧ r ≤ 0x10C5 then r + 7264
  else if r = 0x10C7 then 0x2D27
  else if r = 0x10CD then 0x2D2D
  else if 0x13F8 ≤ r ∧ r ≤ 0x13FD then r - 8
  else if r = 0x1C80 then 0x432
  else if r = 0x1C81 then 0x434
  else if r = 0x1C82 then 0x43E
  else if 0x1C83 ≤ r ∧ r ≤ 0x1C84 then r - 6210
  else if r = 0x1C85 then 0x442
  else if r = 0x1C86 then 0x44A
  else if r = 0x1C87 then 0x463
  else if r = 0x1C88 then 0xA64B
  else if 0x1C90 ≤ r ∧ r ≤ 0x1CBA then r - 3008
  else if 0x1CBD ≤ r ∧ r ≤ 0x1CBF then r - 3008
  else if 0x1E00 ≤ r ∧ r ≤ 0x1E94 ∧ (r - 0x1E00) % 2 = 0 then r + 1
  else if r = 0x1E9B then 0x1E61
  else if r = 0x1E9E then 0xDF
  else if 0x1EA0 ≤ r ∧ r ≤ 0x1EFE ∧ (r - 0x1EA0) % 2 = 0 then r + 1
  else if 0x1F08 ≤ r ∧ r ≤ 0x1F0F then r - 8
  else if 0x1F18 ≤ r ∧ r ≤ 0x1F1D then r - 8
  else if 0x1F28 ≤ r ∧ r ≤ 0x1F2F then r - 8
  else if 0x1F38 ≤ r ∧ r ≤ 0x1F3F then r - 8
  else if 0x1F48 ≤ r ∧ r ≤ 0x1F4D then r - 8
  else if 0x1F59 ≤ r ∧ r ≤ 0x1F5F ∧ (r - 0x1F59) % 2 = 0 then r - 8
  else if 0x1F68 ≤ r ∧ r ≤ 0x1F6F then r - 8
  else if 0x1F88 ≤ r ∧ r ≤ 0x1F8F then r - 8
  else if 0x1F98 ≤ r ∧ r ≤ 0x1F9F then r - 8
  else if 0x1FA8 ≤ r ∧ r ≤ 0x1FAF then r - 8
  else if 0x1FB8 ≤ r ∧ r ≤ 0x1FB9 then r - 8
  else if 0x1FBA ≤ r ∧ r ≤ 0x1FBB then r - 74
  else if r = 0x1FBC then 0x1FB3
  else if r = 0x1FBE then 0x3B9
  else if 0x1FC8 ≤ r ∧ r ≤ 0x1FCB then r - 86
  else if r = 0x1FCC then 0x1FC3
  else if 0x1FD8 ≤ r ∧ r ≤ 0x1FD9 then r - 8
  else if 0x1FDA ≤ r ∧ r ≤ 0x1FDB then r - 100
  else if 0x1FE8 ≤ r ∧ r ≤ 0x1FE9 then r - 8
  else if 0x1FEA ≤ r ∧ r ≤ 0x1FEB then r - 112
  else if r = 0x1FEC then 0x1FE5
  else if 0x1FF8 ≤ r ∧ r ≤ 0x1FF9 then r - 128
  else if 0x1FFA ≤ r ∧ r ≤ 0x1FFB then r - 126
  else if r = 0x1FFC then 0x1FF3
  else if r = 0x2126 then 0x3C9
  else if r = 0x212A then 0x6B
  else if r = 0x212B then 0xE5
  else if r = 0x2132 then 0x214E
  else if 0x2160 ≤ r ∧ r ≤ 0x216F then r + 16
  else if r = 0x2183 then 0x2184
  else if 0x24B6 ≤ r ∧ r ≤ 0x24CF then r + 26
  else if 0x2C00 ≤ r ∧ r ≤ 0x2C2F then r + 48
  else if r = 0x2C60 then 0x2C61
  else if r = 0x2C62 then 0x26B
  else if r = 0x2C63 then 0x1D7D
  else if r = 0x2C64 then 0x27D
  else if 0x2C67 ≤ r ∧ r ≤ 0x2C6B ∧ (r - 0x2C67) % 2 = 0 then r + 1
  else if r = 0x2C6D then 0x251
  else if r = 0x2C6E then 0x271
  else if r = 0x2C6F then 0x250
  else if r = 0x2C70 then 0x252
  else if r = 0x2C72 then 0x2C73
  else if r = 0x2C75 then 0x2C76
  else if 0x2C7E ≤ r ∧ r ≤ 0x2C7F then r - 10815
  else if 0x2C80 ≤ r ∧ r ≤ 0x2CE2 ∧ (r - 0x2C80) % 2 = 0 then r + 1
  else if 0x2CEB ≤ r ∧ r ≤ 0x2CED ∧ (r - 0x2CEB) % 2 = 0 then r + 1
  else if r = 0x2CF2 then 0x2CF3
  else if 0xA640 ≤ r ∧ r ≤ 0xA66C ∧ (r - 0xA640) % 2 = 0 then r + 1
  else if 0xA680 ≤ r ∧ r ≤ 0xA69A ∧ (r - 0xA680) % 2 = 0 then r + 1
  else if 0xA722 ≤ r ∧ r ≤ 0xA72E ∧ (r - 0xA722) % 2 = 0 then r + 1
  else if 0xA732 ≤ r ∧ r ≤ 0xA76E ∧ (r - 0xA732) % 2 = 0 then r + 1
  else if 0xA779 ≤ r ∧ r ≤ 0xA77B ∧ (r - 0xA779) % 2 = 0 then r + 1
  else if r = 0xA77D then 0x1D79
  else if 0xA77E ≤ r ∧ r ≤ 0xA786 ∧ (r - 0xA77E) % 2 = 0 then r + 1
  else if r = 0xA78B then 0xA78C
  else if r = 0xA78D then 0x265
  else if 0xA790 ≤ r ∧ r ≤ 0xA792 ∧ (r - 0xA790) % 2 = 0 then r + 1
  else if 0xA796 ≤ r ∧ r ≤ 0xA7A8 ∧ (r - 0xA796) % 2 = 0 then r + 1
  else if r = 0xA7AA then 0x266
  else if r = 0xA7AB then 0x25C
  else if r = 0xA7AC then 0x261
  else if r = 0xA7AD then 0x26C
  else if r = 0xA7AE then 0x26A
  else if r = 0xA7B0 then 0x29E
  else if r = 0xA7B1 then 0x287
  else if r = 0xA7B2 then 0x29D
  else if r = 0xA7B3 then 0xAB53
  else if 0xA7B4 ≤ r ∧ r ≤ 0xA7C2 ∧ (r - 0xA7B4) % 2 = 0 then r + 1
  else if r = 0xA7C4 then 0xA794
  else if r = 0xA7C5 then 0x282
  else if r = 0xA7C6 then 0x1D8E
  else if 0xA7C7 ≤ r ∧ r ≤ 0xA7C9 ∧ (r - 0xA7C7) % 2 = 0 then r + 1
  else if r = 0xA7D0 then 0xA7D1
  else if 0xA7D6 ≤ r ∧ r ≤ 0xA7D8 ∧ (r - 0xA7D6) % 2 = 0 then r + 1
  else if r = 0xA7F5 then 0xA7F6
  else if 0xAB70 ≤ r ∧ r ≤ 0xABBF then r - 38864
  else if 0xFF21 ≤ r ∧ r ≤ 0xFF3A then r + 32
  else if 0x10400 ≤ r ∧ r ≤ 0x10427 then r + 40
  else if 0x104B0 ≤ r ∧ r ≤ 0x104D3 then r + 40
  else if 0x10570 ≤ r ∧ r ≤ 0x1057A then r + 39
  else if 0x1057C ≤ r ∧ r ≤ 0x1058A then r + 39
  else if 0x1058C ≤ r ∧ r ≤ 0x10592 then r + 39
  else if 0x10594 ≤ r ∧ r ≤ 0x10595 then r + 39
  else if 0x10C80 ≤ r ∧ r ≤ 0x10CB2 then r + 64
  else if 0x118A0 ≤ r ∧ r ≤ 0x118BF then r + 32
  else if 0x16E40 ≤ r ∧ r ≤ 0x16E5F then r + 32
  else if 0x1E900 ≤ r ∧ r ≤ 0x1E921 then r + 34
  else r

/-- Case folding used for the case-insensitive marker search, as Go's
`(?i)` + `regexp.QuoteMeta(cutString)` at main.go:1182 performs it: a rune
of the subject matches a literal rune of the pattern exactly when the two
have the same Unicode simple case fold. -/
def foldCase (c : Char) : Char := Char.ofNat (simpleCaseFold c.toNat)

/-- Does `needle` match at rune position `i` of `hay` under Go's
case-insensitive literal matching, i.e. comparing Unicode simple case
folds position by position? -/
def ciMatchesAt (hay needle : String) (i : Nat) : Bool :=
  ((hay.data.drop i).take needle.data.length).map foldCase
    == needle.data.map foldCase

/-- Left-to-right scan for the first case-insensitive match, as
`regexp.FindStringIndex` performs. -/
def ciFindIndexAux (hay needle : String) : Nat → Nat → Option Nat
  | 0, _ => none
  | fuel + 1, i =>
    if ciMatchesAt hay needle i then some i
    else ciFindIndexAux hay needle fuel (i + 1)

/-- Rune index of the first case-insensitive occurrence of `needle` in
`hay`, if any. -/
def ciFindIndex (hay needle : String) : Option Nat :=
  ciFindIndexAux hay needle (hay.data.length + 1) 0

/-- The cut-marker stage (main.go:1179-1191): when `config.CutText` is
non-empty and occurs case-insensitively in the composed message, everything
from the first occurrence onward is discarded. -/
def applyCut (cfg : Config) (msg : String) : String :=
  if cfg.cutText.length ≠ 0 then
    match ciFindIndex msg cfg.cutText with
    | some i => String.mk (msg.data.take i)
    | none => msg
  else msg

/-- The message just before the final global cap (main.go:1158-1191). -/
def composeMessage (cfg : Config) (folder sender subject body : String)
    (maxLength : Int) : String :=
  applyCut cfg (preCutMessage cfg folder sender subject body maxLength)

/-- `formatMessage` (main.go:1150-1196): composed stages followed by the
unconditional 4000-rune cap of line 1195. -/
def formatMessage (cfg : Config) (folder sender subject body : String)
    (maxLength : Int) : String :=
  truncateByRunesCore (composeMessage cfg folder sender subject body maxLength) 4000

/-! ## Dedup cache and per-item processing (processEmail — main.go:1098-1148)

`processedEmails` is a Go `map[string]bool`; reading an absent key yields
`false`, so the cache is a total function `String → Bool`.  The COM property
reads and the Telegram call are the item's environment: `EmailItem` carries
the field values (`entryID = none` models a failing `GetProperty "EntryID"`,
the only fallible read), and `sendOk` is the outcome of
`sendTelegramMessage` for this attempt. -/

def DedupState : Type := String → Bool

instance : Inhabited DedupState := ⟨fun _ => false⟩

structure EmailItem where
  entryID : Option String
  senderName : String
  senderEmail : String
  subject : String
  body : String
deriving DecidableEq, Repr

/-- One attempted Telegram delivery (text and resolved chat id). -/
structure SendAttempt where
  text : String
  chatID : String
deriving DecidableEq, Repr

/-- The `for _, f := range config.Folders` loop of main.go:1128-1134: first
folder rule with a matching name, or the zero value. -/
def findFolderConfig (cfg : Config) (folderName : String) : Folder :=
  (cfg.folders.find? (fun f => f.name == folderName)).getD ⟨"", "", 0⟩

/-- The sender string built at main.go:1115-1123. -/
def senderOf (item : EmailItem) : String :=
  if item.senderName ≠ "" ∧ item.senderName ≠ item.senderEmail then
    item.senderName ++ " <" ++ item.senderEmail ++ ">"
  else item.senderEmail

/-- `processEmail` (main.go:1098-1148): returns the dedup cache after the
call together with the list of delivery attempts made (empty or a
singleton).  The lock of lines 1107-1108 spans the whole body; items are
processed one at a time, so the function maps cache to cache. -/
def processEmail (cfg : Config) (st : DedupState) (item : EmailItem)
    (folderName : String) (sendOk : Bool) : DedupState × List SendAttempt :=
  match item.entryID with
  | none => (st, [])
  | some entryID =>
    if st entryID then (st, [])
    else
      let marked : DedupState := fun k => if k = entryID then true else st k
      let folderConfig := findFolderConfig cfg folderName
      let message := formatMessage cfg folderName (senderOf item) item.subject
        item.body folderConfig.messageLength
      let chatID := if folderConfig.chatID = "" then cfg.telegram.defaultChatID
        else folderConfig.chatID
      if sendOk then (marked, [⟨message, chatID⟩])
      else ((fun k => if k = entryID then false else marked k : DedupState),
        [⟨message, chatID⟩])

/-- Cache state together with the number of delivery attempts for this item
that have returned success so far. -/
structure MicroPoint where
  cache : DedupState
  successes : Nat

/-- The intermediate dedup-cache states visited by one `processEmail` call,
in program order: on entry, after the optimistic mark of main.go:1113
(before `sendTelegramMessage` is called), and after the send result is
handled at main.go:1142-1147. -/
def processEmailMicro (cfg : Config) (st : DedupState) (item : EmailItem)
    (folderName : String) (sendOk : Bool) : List MicroPoint :=
  match item.entryID with
  | none => [⟨st, 0⟩]
  | some entryID =>
    if st entryID then [⟨st, 0⟩]
    else
      let marked : DedupState := fun k => if k = entryID then true else st k
      if sendOk then [⟨st, 0⟩, ⟨marked, 0⟩, ⟨marked, 1⟩]
      else [⟨st, 0⟩, ⟨marked, 0⟩,
        ⟨(fun k => if k = entryID then false else marked k : DedupState), 0⟩]

/-- A run of the pipeline over a sequence of enumerated items: each element
carries the item, the folder it was enumerated from, and whether its
delivery attempt (if one is made) succeeds. -/
def runEmails (cfg : Config) (st : DedupState) :
    List (EmailItem × String × Bool) → DedupState
  | [] => st
  | (item, folderName, sendOk) :: rest =>
    runEmails cfg (processEmail cfg st item folderName sendOk).1 rest

/-! ## Delivery client (sendTelegramMessage, postJSON — main.go:1206-1250) -/

/-- What the single HTTP POST of `postJSON` observes: a transport error from
`client.Do`, or a response with a status code and a body that either reads
fully or fails to read. -/
inductive HttpOutcome where
  | transportError (msg : String)
  | response (status : Nat) (bodyRead : Option String)
deriving DecidableEq, Repr

/-- The error value `postJSON` returns.  `json.Marshal` of the fixed
string-keyed map and `http.NewRequest` with the constant method/URL cannot
fail, so those two Go branches are unreachable and not modelled.
`badStatus` carries the status code and response body exactly as the
`fmt.Errorf` of main.go:1246 does. -/
inductive PostError where
  | transport (msg : String)
  | readBody (msg : String)
  | badStatus (code : Nat) (body : String)
deriving DecidableEq, Repr

/-- `postJSON` (main.go:1220-1250) in the order of the Go code: transport
error, then body read, then the `!= 200` status check. -/
def postJSON (outcome : HttpOutcome) : Except PostError String :=
  match outcome with
  | .transportError m => .error (.transport m)
  | .response _ none => .error (.readBody "read failed")
  | .response status (some body) =>
    if status ≠ 200 then .error (.badStatus status body)
    else .ok body

/-- `postJSON` against a queue of prepared outcomes: exactly the first one
is consumed, whatever the result — the function performs no retry. -/
def postJSONTrace (outcomes : List HttpOutcome) :
    Except PostError String × List HttpOutcome :=
  match outcomes with
  | [] => (.error (.transport "no response"), [])
  | o :: rest => (postJSON o, rest)

/-- `sendTelegramMessage` (main.go:1206-1218): returns the error of
`postJSON` unchanged (`none` = Go `nil`). -/
def sendTelegramMessage (outcome : HttpOutcome) : Option PostError :=
  match postJSON outcome with
  | .ok _ => none
  | .error e => some e

/-! ## Folder resolution (getFolder, findFolderRecursive — main.go:1045-1073)

A mail folder is its name plus its child folders in provider order; the
MAPI namespace supplies the default inbox handle (`GetDefaultFolder 6`) and
its top-level `Folders` collection. -/

inductive MailFolder where
  | node (name : String) (children : List MailFolder)
deriving Repr

def MailFolder.name : MailFolder → String
  | node n _ => n

def MailFolder.children : MailFolder → List MailFolder
  | node _ cs => cs

structure MapiNamespace where
  inbox : MailFolder
  rootFolders : List MailFolder

/-- `findFolderRecursive` (main.go:1052-1073) on the `Folders` collection of
a parent: walk the children in provider order; for each child compare its
name for exact (case-sensitive) equality, and on mismatch descend into that
child's subtree before moving to the next sibling.  `none` models the
`fmt.Errorf("папка не найдена")` return. -/
def findFolderRecursive (target : String) : List MailFolder → Option MailFolder
  | [] => none
  | MailFolder.node n cs :: rest =>
    if n = target then some (MailFolder.node n cs)
    else match findFolderRecursive target cs with
      | some r => some r
      | none => findFolderRecursive target rest

/-- `getFolder` (main.go:1045-1050): the literal name `"Входящие"` is
special-cased to the namespace's default inbox, fetched without search. -/
def getFolder (ns : MapiNamespace) (name : String) : Option MailFolder :=
  if name = "Входящие" then some ns.inbox
  else findFolderRecursive name ns.rootFolders

/-- Pre-order flattening of a folder forest: each folder before its
subtree, siblings in provider order. -/
def preorderFolders : List MailFolder → List MailFolder
  | [] => []
  | MailFolder.node n cs :: rest =>
    MailFolder.node n cs :: (preorderFolders cs ++ preorderFolders rest)

/-! ## Cycle scheduler (mainLogic — main.go:850-940, safeGoNoLog — 190-199)

`mainLogic` loops forever: it blocks on `semaphore <- struct{}{}` (capacity
one), spawns the cycle body with `safeGoNoLog`, then sleeps in
`waitNextCheck` before the next iteration.  The goroutine's first deferred
action reads the semaphore back, and `safeGoNoLog`'s deferred `recover`
swallows any panic.  The loop and the goroutines are modelled as a labelled
transition system over the shared semaphore, the count of running cycle
goroutines, the scheduler thread's position, and a crash flag. -/

/-- Result of running a Go function body: normal return or panic. -/
inductive GoResult (α : Type) where
  | ok (a : α)
  | panicked (msg : String)
deriving Repr

def isPanicked : GoResult Unit → Bool
  | .ok _ => false
  | .panicked _ => true

/-- The deferred `recover()` of `safeGoNoLog` (main.go:190-199): a panic is
swallowed silently, a normal return passes through. -/
def withRecoverSilent : GoResult Unit → GoResult Unit
  | .ok _ => .ok ()
  | .panicked _ => .ok ()

/-- What reaches the runtime when the cycle goroutine ends. -/
structure CycleExit where
  releasedSlot : Bool
  result : GoResult Unit
deriving Repr

/-- The cycle goroutine of main.go:877-934 at its end: Go runs the deferred
`<-semaphore` of line 878 both on normal return and during panicking, and
`safeGoNoLog`'s recover then consumes any panic. -/
def cycleExit : GoResult Unit → CycleExit
  | .ok a => ⟨true, withRecoverSilent (.ok a)⟩
  | .panicked m => ⟨true, withRecoverSilent (.panicked m)⟩

/-- `waitNextCheck` (main.go:1252-1258): sleep the configured interval,
defaulting to 10 seconds when the configured value is ≤ 0. -/
def waitSeconds (checkIntervalSeconds : Int) : Nat :=
  if checkIntervalSeconds ≤ 0 then 10 else checkIntervalSeconds.toNat

structure SchedState where
  slotHeld : Bool
  inFlight : Nat
  schedSleeping : Bool
  crashed : Bool
deriving DecidableEq, Repr

/-- Observable events of the scheduler system. -/
inductive Event where
  | spawnCycle
  | sleepDone (secs : Nat)
  | cycleEnd (body : GoResult Unit)
deriving Repr

def initState : SchedState :=
  { slotHeld := false, inFlight := 0, schedSleeping := false, crashed := false }

/-- One step of the system.  `spawn`: the scheduler thread, not sleeping,
acquires the free semaphore slot and starts the cycle goroutine, then
enters `waitNextCheck`.  `sleep`: `waitNextCheck` returns after exactly
`waitSeconds interval` seconds.  `finish`: a running cycle goroutine ends
with some body result; its deferred cleanup releases the slot and the
recover decides whether a panic escapes to crash the process. -/
inductive Step (interval : Int) : SchedState → Event → SchedState → Prop where
  | spawn (s : SchedState) :
      s.slotHeld = false → s.schedSleeping = false → s.crashed = false →
      Step interval s .spawnCycle
        { slotHeld := true, inFlight := s.inFlight + 1,
          schedSleeping := true, crashed := s.crashed }
  | sleep (s : SchedState) :
      s.schedSleeping = true → s.crashed = false →
      Step interval s (.sleepDone (waitSeconds interval))
        { s with schedSleeping := false }
  | finish (s : SchedState) (body : GoResult Unit) :
      0 < s.inFlight → s.crashed = false →
      Step interval s (.cycleEnd body)
        { slotHeld := if (cycleExit body).releasedSlot then false else s.slotHeld,
          inFlight := s.inFlight - 1,
          schedSleeping := s.schedSleeping,
          crashed := s.crashed || isPanicked (cycleExit body).result }

/-- States reachable from program start. -/
inductive Reachable (interval : Int) : SchedState → Prop where
  | init : Reachable interval initState
  | step {s e s'} : Reachable interval s → Step interval s e s' →
      Reachable interval s'

/-- A sequence of events the system can perform from a given state. -/
inductive ValidTrace (interval : Int) : SchedState → List Event → Prop where
  | nil (s : SchedState) : ValidTrace interval s []
  | cons {s : SchedState} {e : Event} {s' : SchedState} {tr : List Event} :
      Step interval s e s' → ValidTrace interval s' tr →
      ValidTrace interval s (e :: tr)

/-! ## Claim propositions and sample data

Propositions stating disputed claims exactly as the specification words
them, and the concrete values used by counterexamples and witnesses. -/

/-- Claim C10 as stated: for every string and every bound (the Go parameter
is a signed `int`), the function returns the string unchanged when its rune
count is at most the bound, and otherwise the first `maxRunes` runes
followed by `"..."`. -/
def truncateTotalClaim : Prop :=
  ∀ (text : String) (maxRunes : Int),
    truncateByRunes text maxRunes =
      some (if (text.data.length : Int) ≤ maxRunes then text
            else String.mk (text.data.take maxRunes.toNat) ++ "...")

/-- Claim C2 as stated: at every point during processing, the cache flag of
an identity is true only if a delivery attempt for it has already returned
success. -/
def processedOnlyAfterSuccessClaim : Prop :=
  ∀ (cfg : Config) (st : DedupState) (item : EmailItem) (folderName : String)
    (sendOk : Bool) (id : String),
    item.entryID = some id →
    ∀ p ∈ processEmailMicro cfg st item folderName sendOk,
      p.cache id = true → 1 ≤ p.successes

/-- Claim C6's traversal discipline as stated: the search "recurses into
children only when no child at the current level matches", so whenever some
child at the current level has the target name, the resolved folder is such
a child. -/
def levelFirstResolutionClaim : Prop :=
  ∀ (fs : List MailFolder) (target : String),
    (∃ f ∈ fs, f.name = target) →
    ∃ f ∈ fs, f.name = target ∧ findFolderRecursive target fs = some f

/-- Claim C9's ordering as stated: the scheduler sleeps between a cycle's
completion and the start of the next iteration, so a new cycle is never
spawned as the very next event after a cycle ends. -/
def schedulerSleepsAfterCompletionClaim (interval : Int) : Prop :=
  ∀ tr, ValidTrace interval initState tr →
    ∀ i b, tr[i]? = some (Event.cycleEnd b) →
      tr[i + 1]? ≠ some Event.spawnCycle

/-- Telegram settings used by the concrete examples. -/
def sampleTelegram : TelegramSettings :=
  { botToken := "123:abc", defaultChatID := "100", useEmojis := false }

/-- A validated configuration with no cut marker. -/
def sampleConfig : Config :=
  { telegram := sampleTelegram, checkIntervalSeconds := 10,
    loggingEnabled := false, fileLoggingEnabled := false,
    startMinimized := false, cutText := "", folders := [],
    ip := "127.0.0.1", port := 8080 }

/-- The configuration of the specification's scenario: folder rule
`{name: "Invoices", maxLength: 50}` and cut marker `"--END--"`. -/
def sampleCutConfig : Config :=
  { sampleConfig with
    cutText := "--END--",
    folders := [{ name := "Invoices", chatID := "", messageLength := 50 }] }

/-- A mail item whose identity token reads successfully. -/
def sampleItem : EmailItem :=
  { entryID := some "e1", senderName := "Alice",
    senderEmail := "alice@example.com", subject := "Hi", body := "hello" }

/-- The empty dedup cache (fresh `map[string]bool`). -/
def emptyCache : DedupState := fun _ => false

/-- A folder named `"T"` nested inside folder `"A"`. -/
def innerT : MailFolder := MailFolder.node "T" [MailFolder.node "X" []]

/-- Top-level folder `"A"` containing `innerT`. -/
def folderA : MailFolder := MailFolder.node "A" [innerT]

/-- A top-level folder also named `"T"`. -/
def outerT : MailFolder := MailFolder.node "T" []

/-- Root forest in provider order: `"A"` (with the nested `"T"`) before the
top-level `"T"`. -/
def sampleForest : List MailFolder := [folderA, outerT]

/-! ## Claim C10 — truncateByRunes -/

/-- C10 counterexample: at `text = "a"`, `maxRunes = -1` the guard
`len(runes) <= maxRunes` is false and `runes[:-1]` panics (modelled as
`none`), so the function does not return the claimed value at every bound. -/
theorem truncateByRunes_claim_false : ¬ truncateTotalClaim := by
  intro h
  have h1 := h "a" (-1)
  simp [truncateByRunes] at h1

/-- C10 (amended): for every non-negative bound, `truncateByRunes` is the
identity when the rune count is at most the bound (no ellipsis appended),
and otherwise returns exactly the first `maxRunes` runes followed by the
three-character ellipsis `"..."`.  (Negative bounds, which no call site
passes, make the Go slice expression panic.) -/
theorem truncateByRunes_nonneg_spec (text : String) (m : Int) (hm : 0 ≤ m) :
    truncateByRunes text m = some (truncateByRunesCore text m.toNat) ∧
    (text.data.length ≤ m.toNat → truncateByRunes text m = some text) ∧
    (m.toNat < text.data.length →
      truncateByRunes text m =
        some (String.mk (text.data.take m.toNat) ++ "...")) := by
  have hiff : ((text.data.length : Int) ≤ m) ↔ text.data.length ≤ m.toNat :=
    (Int.le_toNat hm).symm
  refine ⟨?_, ?_, ?_⟩
  · unfold truncateByRunes truncateByRunesCore
    by_cases hle : (text.data.length : Int) ≤ m
    · rw [if_pos hle, if_pos (hiff.mp hle)]
    · rw [if_neg hle, if_neg (fun hc => hle (hiff.mpr hc)),
        if_neg (by omega : ¬ m < 0)]
  · intro hle
    unfold truncateByRunes
    rw [if_pos (hiff.mpr hle)]
  · intro hlt
    unfold truncateByRunes
    rw [if_neg (fun hc => absurd (hiff.mp hc) (by omega)),
      if_neg (by omega : ¬ m < 0)]

/-- Witness for C10's amended theorem at `("hello", 3)`. -/
theorem truncateByRunes_nonneg_spec_witness :
    truncateByRunes "hello" 3 = some "hel..." := by
  have h := (truncateByRunes_nonneg_spec "hello" 3 (by decide)).2.2 (by decide)
  rw [h]
  decide

/-! ## Claim C3 — global 4000-character cap -/

/-- C3: whatever the per-folder `maxLength`, the final message is the
composed message when it has at most 4000 runes, and otherwise exactly its
first 4000 runes followed by the ellipsis; in particular the result never
exceeds 4003 runes. -/
theorem formatMessage_global_cap (cfg : Config)
    (folder sender subject body : String) (maxLength : Int) :
    formatMessage cfg folder sender subject body maxLength =
      (if (composeMessage cfg folder sender subject body maxLength).data.length ≤ 4000
       then composeMessage cfg folder sender subject body maxLength
       else String.mk
          ((composeMessage cfg folder sender subject body maxLength).data.take 4000)
          ++ "...") ∧
    (formatMessage cfg folder sender subject body maxLength).data.length ≤ 4003 := by
  constructor
  · rfl
  · show (truncateByRunesCore _ 4000).data.length ≤ 4003
    unfold truncateByRunesCore
    split_ifs with h
    · omega
    · rw [String.data_append]
      simp only [List.length_append, List.length_take, List.length_cons,
        List.length_nil]
      omega

/-! ## Claim C5 — body inclusion policy -/

theorem escapeChar_length_pos (c : Char) : 1 ≤ (escapeChar c).length := by
  unfold escapeChar
  split_ifs <;> simp

theorem flatMap_escapeChar_length_ge (l : List Char) :
    l.length ≤ (l.flatMap escapeChar).length := by
  induction l with
  | nil => simp
  | cons c cs ih =>
    simp only [List.flatMap_cons, List.length_append, List.length_cons]
    have := escapeChar_length_pos c
    omega

/-- HTML escaping never shortens a string (each character maps to at least
one character). -/
theorem escapeString_length_ge (s : String) :
    s.data.length ≤ (escapeString s).data.length :=
  flatMap_escapeChar_length_ge s.data

/-- C5: the per-folder body policy of `formatMessage`.  With
`maxLength = 0` the composed message is the header alone (the body cannot
influence it); with any nonzero `maxLength` the escaped body section is
appended after the `"<i>Сообщение:</i>"` marker; a negative `maxLength`
leaves the escaped body untruncated; a positive `maxLength = N` with a body
of more than `N` runes yields exactly the first `N` runes of the escaped
body followed by the ellipsis. -/
theorem formatMessage_body_policy (cfg : Config)
    (folder sender subject body : String) (maxLength : Int) :
    (composeMessage cfg folder sender subject body 0 =
      applyCut cfg (msgHeader cfg folder sender subject)) ∧
    (maxLength ≠ 0 →
      preCutMessage cfg folder sender subject body maxLength =
        msgHeader cfg folder sender subject ++ "<i>Сообщение:</i>\n" ++
          bodySection body maxLength) ∧
    (maxLength < 0 → bodySection body maxLength = escapeString body) ∧
    (0 < maxLength → maxLength.toNat < body.data.length →
      bodySection body maxLength =
        String.mk ((escapeString body).data.take maxLength.toNat) ++ "...") := by
  refine ⟨?_, ?_, ?_, ?_⟩
  · unfold composeMessage preCutMessage
    simp
  · intro h
    unfold preCutMessage
    rw [if_pos h]
  · intro h
    unfold bodySection
    rw [if_neg (by omega)]
  · intro hpos hlen
    unfold bodySection
    rw [if_pos hpos]
    unfold truncateByRunesCore
    rw [if_neg ?_]
    have := escapeString_length_ge body
    omega

/-- Witness for C5 at `body = "hello"`, `maxLength = 3`: the body section
is exactly the first three escaped characters plus the ellipsis, and with
`maxLength = 0` the composed message is the bare header. -/
theorem formatMessage_body_policy_witness :
    bodySection "hello" 3 = "hel..." ∧
    composeMessage sampleConfig "f" "s" "t" "hello" 0 =
      applyCut sampleConfig (msgHeader sampleConfig "f" "s" "t") := by
  have h := formatMessage_body_policy sampleConfig "f" "s" "t" "hello" 3
  refine ⟨?_, h.1⟩
  have h4 := h.2.2.2 (by decide) (by decide)
  rw [h4]
  decide

/-! ## Claim C4 — cut marker -/

/-- The folding used by the cut-marker search handles the non-ASCII cases
of Unicode simple case folding: Cyrillic А folds to а, Kelvin K to k, long
s (ſ) to s, and capital and final sigma to σ. -/
theorem foldCase_unicode_samples :
    foldCase (Char.ofNat 0x410) = Char.ofNat 0x430 ∧
    foldCase (Char.ofNat 0x212A) = Char.ofNat 0x6B ∧
    foldCase (Char.ofNat 0x17F) = Char.ofNat 0x73 ∧
    foldCase (Char.ofNat 0x3A3) = Char.ofNat 0x3C3 ∧
    foldCase (Char.ofNat 0x3C2) = Char.ofNat 0x3C3 := by
  decide

/-- The left-to-right scan returns the first position that matches: the
found position matches and every earlier scanned position does not. -/
theorem ciFindIndexAux_first (hay needle : String) :
    ∀ (fuel start i : Nat), ciFindIndexAux hay needle fuel start = some i →
      ciMatchesAt hay needle i = true ∧ start ≤ i ∧
        ∀ j, start ≤ j → j < i → ciMatchesAt hay needle j = false := by
  intro fuel
  induction fuel with
  | zero => intro start i h; exact absurd h (by simp [ciFindIndexAux])
  | succ n ih =>
    intro start i h
    unfold ciFindIndexAux at h
    by_cases hm : ciMatchesAt hay needle start
    · rw [if_pos hm] at h
      obtain rfl : start = i := Option.some.inj h
      exact ⟨hm, Nat.le_refl _, fun j h1 h2 => absurd h1 (by omega)⟩
    · rw [if_neg hm] at h
      obtain ⟨h1, h2, h3⟩ := ih (start + 1) i h
      refine ⟨h1, by omega, fun j hj1 hj2 => ?_⟩
      by_cases hj : j = start
      · subst hj; exact Bool.not_eq_true _ ▸ eq_false_of_ne_true hm
      · exact h3 j (by omega) hj2

/-- C4: when the configured cut marker is non-empty and occurs
case-insensitively in the composed header+body (at first rune position
`i`), the message after the cut stage is exactly the prefix of the composed
text ending strictly before that occurrence — position `i` matches and no
earlier position does — and the global 4000-rune cap is applied only
afterwards, to the already-cut message. -/
theorem formatMessage_cut_marker (cfg : Config)
    (folder sender subject body : String) (maxLength : Int) (i : Nat)
    (hcut : cfg.cutText.length ≠ 0)
    (hfind : ciFindIndex (preCutMessage cfg folder sender subject body maxLength)
      cfg.cutText = some i) :
    composeMessage cfg folder sender subject body maxLength =
      String.mk ((preCutMessage cfg folder sender subject body maxLength).data.take i) ∧
    ciMatchesAt (preCutMessage cfg folder sender subject body maxLength)
      cfg.cutText i = true ∧
    (∀ j, j < i →
      ciMatchesAt (preCutMessage cfg folder sender subject body maxLength)
        cfg.cutText j = false) ∧
    formatMessage cfg folder sender subject body maxLength =
      truncateByRunesCore (composeMessage cfg folder sender subject body maxLength)
        4000 := by
  obtain ⟨h1, _, h3⟩ := ciFindIndexAux_first _ _ _ _ _ hfind
  refine ⟨?_, h1, fun j hj => h3 j (Nat.zero_le _) hj, rfl⟩
  unfold composeMessage applyCut
  rw [if_pos hcut, hfind]

/-- Witness for C4: the specification's scenario — folder rule
`maxLength = 50`, cut text `"--END--"`, body
`"Please pay before --END-- ignore this"`; the first case-insensitive
occurrence is at rune position 96 and the composed message is the prefix up
to it. -/
theorem formatMessage_cut_marker_witness :
    composeMessage sampleCutConfig "Invoices" "a" "t"
      "Please pay before --END-- ignore this" 50 =
      String.mk ((preCutMessage sampleCutConfig "Invoices" "a" "t"
        "Please pay before --END-- ignore this" 50).data.take 96) := by
  have h := formatMessage_cut_marker sampleCutConfig "Invoices" "a" "t"
    "Please pay before --END-- ignore this" 50 96 (by decide) (by decide)
  exact h.1

/-! ## Claim C1 — dedup skip and failure rollback -/

/-- C1: while an identity's cache entry is true, `processEmail` returns
before any delivery attempt and leaves the cache unchanged; from an
unmarked entry exactly one delivery attempt is made, a failed attempt
leaves the entry false again (eligible for the single attempt of a later
cycle), and a successful attempt leaves it true. -/
theorem processEmail_dedup_rollback (cfg : Config) (st : DedupState)
    (item : EmailItem) (folderName : String) (sendOk : Bool) (id : String)
    (hid : item.entryID = some id) :
    (st id = true → processEmail cfg st item folderName sendOk = (st, [])) ∧
    (st id = false →
      (processEmail cfg st item folderName sendOk).2.length = 1 ∧
      (sendOk = false →
        (processEmail cfg st item folderName sendOk).1 id = false) ∧
      (sendOk = true →
        (processEmail cfg st item folderName sendOk).1 id = true)) := by
  constructor
  · intro h
    unfold processEmail
    rw [hid]
    simp [h]
  · intro h
    unfold processEmail
    rw [hid]
    simp only [h]
    cases sendOk <;> simp

/-- Witness for C1 at a fresh cache with a failing delivery: one attempt is
made and the entry rolls back to false. -/
theorem processEmail_dedup_rollback_witness :
    (processEmail sampleConfig emptyCache sampleItem "f" false).1 "e1" = false ∧
    (processEmail sampleConfig emptyCache sampleItem "f" false).2.length = 1 := by
  have h := (processEmail_dedup_rollback sampleConfig emptyCache sampleItem
    "f" false "e1" rfl).2 rfl
  exact ⟨h.2.1 rfl, h.1⟩

/-! ## Claim C2 — marked only after success? -/

/-- C2 counterexample: with a fresh cache and a failing send, the state
right after the optimistic mark of main.go:1113 has the entry true while no
delivery attempt has succeeded, so the claimed invariant fails mid-call. -/
theorem processedOnlyAfterSuccess_false : ¬ processedOnlyAfterSuccessClaim := by
  intro h
  have hmicro : processEmailMicro sampleConfig emptyCache sampleItem "f" false =
      [⟨emptyCache, 0⟩,
       ⟨fun k => if k = "e1" then true else emptyCache k, 0⟩,
       ⟨fun k => if k = "e1" then false
          else (if k = "e1" then true else emptyCache k), 0⟩] := rfl
  have hmem : (⟨fun k => if k = "e1" then true else emptyCache k, 0⟩ : MicroPoint) ∈
      processEmailMicro sampleConfig emptyCache sampleItem "f" false := by
    rw [hmicro]
    exact List.Mem.tail _ (List.Mem.head _)
  have hc := h sampleConfig emptyCache sampleItem "f" false "e1" rfl _ hmem
    (by decide)
  exact absurd hc (by decide)

/-- A single `processEmail` call can set an identity's flag only if the
flag was already set or this call's delivery attempt succeeded. -/
theorem processEmail_cache_true (cfg : Config) (st : DedupState)
    (item : EmailItem) (folderName : String) (sendOk : Bool) (id : String) :
    (processEmail cfg st item folderName sendOk).1 id = true →
    st id = true ∨ (item.entryID = some id ∧ sendOk = true) := by
  unfold processEmail
  cases hE : item.entryID with
  | none => exact fun h => Or.inl h
  | some e =>
    by_cases hst : st e
    · simp only [hst, if_true]
      exact fun h => Or.inl h
    · simp only [hst, if_false, Bool.false_eq_true]
      cases sendOk with
      | true =>
        simp only [if_true]
        by_cases hide : id = e
        · subst hide
          exact fun _ => Or.inr ⟨rfl, trivial⟩
        · simp only [if_neg hide]
          exact fun h => Or.inl h
      | false =>
        simp only [Bool.false_eq_true, if_false]
        by_cases hide : id = e
        · subst hide
          intro hcontra
          rw [if_pos rfl] at hcontra
          exact Bool.noConfusion hcontra
        · simp only [if_neg hide]
          exact fun h => Or.inl h

/-- The cache after a run of item processings marks an identity only if the
initial cache already had it or some processed item with that identity had
a successful delivery attempt. -/
theorem runEmails_cache_true (cfg : Config)
    (steps : List (EmailItem × String × Bool)) (st : DedupState) (id : String) :
    runEmails cfg st steps id = true →
    st id = true ∨ ∃ s ∈ steps, s.1.entryID = some id ∧ s.2.2 = true := by
  induction steps generalizing st with
  | nil => exact fun h => Or.inl h
  | cons hd tl ih =>
    obtain ⟨item, folderName, sendOk⟩ := hd
    intro h
    rcases ih _ h with h1 | ⟨s, hs1, hs2⟩
    · rcases processEmail_cache_true cfg st item folderName sendOk id h1 with
        ha | hb
      · exact Or.inl ha
      · exact Or.inr ⟨(item, folderName, sendOk), List.Mem.head _, hb⟩
    · exact Or.inr ⟨s, List.Mem.tail _ hs1, hs2⟩

/-- C2 (amended): the flag is set optimistically before the attempt and
rolled back on failure, so whenever an item's processing has completed —
i.e., in every state the dedup cache assumes between `processEmail` calls,
starting from the empty cache — an identity is marked delivered only if
some delivery attempt for that identity returned success. -/
theorem delivered_implies_success (cfg : Config)
    (steps : List (EmailItem × String × Bool)) (id : String)
    (h : runEmails cfg emptyCache steps id = true) :
    ∃ s ∈ steps, s.1.entryID = some id ∧ s.2.2 = true := by
  rcases runEmails_cache_true cfg steps emptyCache id h with h1 | h2
  · exact absurd h1 (by simp [emptyCache])
  · exact h2

/-- Witness for the amended C2: after a successful delivery of the sample
item, the marked identity indeed corresponds to a successful step. -/
theorem delivered_implies_success_witness :
    ∃ s ∈ [(sampleItem, "f", true)], s.1.entryID = some "e1" ∧ s.2.2 = true := by
  exact delivered_implies_success sampleConfig [(sampleItem, "f", true)] "e1"
    (by decide)

/-! ## Claim C6 — folder resolution -/

theorem MailFolder.name_node (n : String) (cs : List MailFolder) :
    (MailFolder.node n cs).name = n := rfl

/-- The Go search is the first match of a pre-order traversal: each folder
is tested before its subtree, and a folder's whole subtree is searched
before its next sibling. -/
theorem findFolderRecursive_eq_find (target : String) (fs : List MailFolder) :
    findFolderRecursive target fs =
      (preorderFolders fs).find? (fun f => f.name == target) := by
  induction fs using findFolderRecursive.induct target with
  | case1 => simp [findFolderRecursive, preorderFolders]
  | case2 cs rest =>
    simp [findFolderRecursive, preorderFolders, MailFolder.name_node]
  | case3 n cs rest hn r hr ih =>
    have hb : (n == target) = false := by simp [hn]
    simp only [findFolderRecursive]
    rw [if_neg hn, hr]
    rw [hr] at ih
    simp only [preorderFolders, List.find?_cons, List.find?_append,
      MailFolder.name_node, ← ih, hb]
    simp
  | case4 n cs rest hn hcs ih1 ih2 =>
    have hb : (n == target) = false := by simp [hn]
    simp only [findFolderRecursive]
    rw [if_neg hn, hcs]
    rw [hcs] at ih1
    simp only [preorderFolders, List.find?_cons, List.find?_append,
      MailFolder.name_node, ← ih1, ← ih2, hb]
    simp

/-- C6 counterexample: in the forest `[A[T[X]], T]` the name `"T"` matches
a folder at the current (top) level, yet `findFolderRecursive` returns the
deeper `"T"` found inside sibling `"A"`, because it descends into each
child before looking at the next sibling — refuting "recurses into children
only when no child at the current level matches". -/
theorem levelFirstResolution_false : ¬ levelFirstResolutionClaim := by
  intro h
  obtain ⟨f, hmem, hname, hres⟩ := h sampleForest "T"
    ⟨outerT, List.Mem.tail _ (List.Mem.head _), rfl⟩
  have hcomp : findFolderRecursive "T" sampleForest = some innerT := by
    simp [findFolderRecursive, sampleForest, folderA, innerT, outerT]
  rw [hcomp] at hres
  obtain rfl : innerT = f := Option.some.inj hres
  rcases List.mem_cons.mp hmem with h1 | h2
  · exact absurd (congrArg MailFolder.name h1) (by decide)
  · rcases List.mem_cons.mp h2 with h3 | h4
    · exact absurd (congrArg (fun g => g.children.length) h3) (by decide)
    · simp at h4

/-- C6 (amended): the well-known inbox name `"Входящие"` resolves to the
provider's default inbox with no search; every other name is resolved by a
pre-order depth-first search — each child is compared (exact,
case-sensitive) before its subtree is searched, and a child's entire
subtree is searched before the next sibling — returning the first match in
that order, and failing exactly when no folder in the tree bears the
name. -/
theorem getFolder_resolution (ns : MapiNamespace) (name : String) :
    getFolder ns name =
      (if name = "Входящие" then some ns.inbox
       else findFolderRecursive name ns.rootFolders) ∧
    (∀ (target : String) (fs : List MailFolder),
      findFolderRecursive target fs =
        (preorderFolders fs).find? (fun f => f.name == target)) ∧
    (∀ (target : String) (fs : List MailFolder),
      findFolderRecursive target fs = none ↔
        ∀ f ∈ preorderFolders fs, ¬(f.name == target)) := by
  refine ⟨rfl, findFolderRecursive_eq_find, fun target fs => ?_⟩
  rw [findFolderRecursive_eq_find]
  exact List.find?_eq_none

/-- Witness for C6's amended theorem on the concrete forest: the inbox
shortcut and the pre-order first match. -/
theorem getFolder_resolution_witness :
    getFolder ⟨MailFolder.node "Inbox" [], sampleForest⟩ "Входящие" =
      some (MailFolder.node "Inbox" []) ∧
    findFolderRecursive "T" sampleForest =
      (preorderFolders sampleForest).find? (fun f => f.name == "T") := by
  have h := getFolder_resolution ⟨MailFolder.node "Inbox" [], sampleForest⟩
    "Входящие"
  exact ⟨by rw [h.1]; rfl, h.2.1 "T" sampleForest⟩

/-! ## Claim C8 — delivery client -/

/-- C8: a delivery succeeds (returns Go `nil`) exactly when the POST came
back as HTTP 200 with a readable body; any other status yields a failure
carrying that status code and the response body; and exactly one prepared
outcome is consumed per call — no internal retry. -/
theorem sendTelegramMessage_success_iff (o : HttpOutcome) :
    (sendTelegramMessage o = none ↔
      ∃ body, o = HttpOutcome.response 200 (some body)) ∧
    (∀ status body, o = HttpOutcome.response status (some body) →
      status ≠ 200 →
      sendTelegramMessage o = some (PostError.badStatus status body)) ∧
    (∀ rest, (postJSONTrace (o :: rest)).2 = rest) := by
  refine ⟨?_, ?_, fun rest => rfl⟩
  · cases o with
    | transportError m => simp [sendTelegramMessage, postJSON]
    | response st ob =>
      cases ob with
      | none => simp [sendTelegramMessage, postJSON]
      | some b =>
        by_cases hst : st = 200
        · subst hst
          constructor
          · intro _
            exact ⟨b, rfl⟩
          · intro _
            rfl
        · rw [show sendTelegramMessage (HttpOutcome.response st (some b)) =
            some (PostError.badStatus st b) from by
              simp [sendTelegramMessage, postJSON, hst]]
          simp [hst]
  · intro status body heq hne
    subst heq
    simp [sendTelegramMessage, postJSON, hne]

/-- Witness for C8: the specification's scenario of an HTTP 429 — the call
fails with the status code and body preserved. -/
theorem sendTelegramMessage_success_iff_witness :
    sendTelegramMessage (HttpOutcome.response 429 (some "Too Many Requests")) =
      some (PostError.badStatus 429 "Too Many Requests") := by
  exact (sendTelegramMessage_success_iff _).2.1 429 "Too Many Requests" rfl
    (by decide)

/-! ## Claim C7 — single-flight scheduler, panic isolation -/

theorem cycleExit_releases (body : GoResult Unit) :
    (cycleExit body).releasedSlot = true := by
  cases body <;> rfl

theorem cycleExit_no_panic (body : GoResult Unit) :
    isPanicked (cycleExit body).result = false := by
  cases body <;> rfl

/-- Inductive invariant of the scheduler system: never more than one cycle
in flight, a free semaphore slot means no cycle running, and the process
has not crashed. -/
theorem reachable_inv (interval : Int) (s : SchedState)
    (h : Reachable interval s) :
    s.inFlight ≤ 1 ∧ (s.slotHeld = false → s.inFlight = 0) ∧
      s.crashed = false := by
  induction h with
  | init => exact ⟨by simp [initState], fun _ => rfl, rfl⟩
  | step hr hstep ih =>
    cases hstep with
    | spawn h1 h2 h3 =>
      have h0 := ih.2.1 h1
      refine ⟨by simp [h0], by simp, h3⟩
    | sleep h1 h2 => exact ih
    | finish body h1 h2 =>
      refine ⟨by simp; omega, fun _ => by simp; omega, ?_⟩
      simp [cycleExit_no_panic, ih.2.2]

/-- C7: at most one cycle is ever in flight and the process never crashes;
when a running cycle ends — with a normal return or a panic caught by
`safeGoNoLog` — the deferred cleanup leaves the slot free and the process
alive, and as soon as the scheduler thread is out of its sleep a new cycle
can be spawned. -/
theorem scheduler_single_flight (interval : Int) (s s' : SchedState)
    (body : GoResult Unit) (hr : Reachable interval s)
    (hstep : Step interval s (Event.cycleEnd body) s') :
    (∀ t, Reachable interval t → t.inFlight ≤ 1 ∧ t.crashed = false) ∧
    s'.slotHeld = false ∧ s'.crashed = false ∧
    (s'.schedSleeping = false → ∃ t, Step interval s' Event.spawnCycle t) := by
  have hinv := reachable_inv interval s hr
  cases hstep with
  | finish body h1 h2 =>
    have hslot : (if (cycleExit body).releasedSlot then false else s.slotHeld)
        = false := by
      rw [cycleExit_releases]
      rfl
    have hcrash : (s.crashed || isPanicked (cycleExit body).result) = false := by
      simp [cycleExit_no_panic, hinv.2.2]
    refine ⟨fun t ht => ⟨(reachable_inv interval t ht).1,
      (reachable_inv interval t ht).2.2⟩, hslot, hcrash, fun hsleep => ?_⟩
    exact ⟨_, Step.spawn _ hslot hsleep hcrash⟩

/-- Witness for C7: after a reachable cycle that ends in a panic, a new
cycle can immediately be spawned. -/
theorem scheduler_single_flight_witness :
    ∃ t, Step 10
      ({ slotHeld := false, inFlight := 0, schedSleeping := false,
         crashed := false } : SchedState) Event.spawnCycle t := by
  have hr2 : Reachable 10 ⟨true, 1, false, false⟩ :=
    Reachable.step
      (Reachable.step Reachable.init (Step.spawn initState rfl rfl rfl))
      (Step.sleep _ rfl rfl)
  have hstep : Step 10 ⟨true, 1, false, false⟩
      (Event.cycleEnd (GoResult.panicked "boom")) ⟨false, 0, false, false⟩ :=
    Step.finish ⟨true, 1, false, false⟩ (GoResult.panicked "boom")
      (by decide) rfl
  have h := scheduler_single_flight 10 ⟨true, 1, false, false⟩
    ⟨false, 0, false, false⟩ (GoResult.panicked "boom") hr2 hstep
  exact h.2.2.2 rfl

/-! ## Claim C9 — pacing between cycles -/

/-- C9 counterexample: a valid behaviour of the scheduler in which a cycle
end is immediately followed by the next spawn — the sleep happened while
the cycle was still in flight, not after its completion. -/
theorem schedulerSleepsAfterCompletion_false :
    ¬ schedulerSleepsAfterCompletionClaim 0 := by
  intro h
  have htr : ValidTrace 0 initState
      [Event.spawnCycle, Event.sleepDone (waitSeconds 0),
       Event.cycleEnd (GoResult.ok ()), Event.spawnCycle] := by
    refine ValidTrace.cons (Step.spawn initState rfl rfl rfl) ?_
    refine ValidTrace.cons (Step.sleep _ rfl rfl) ?_
    refine ValidTrace.cons (Step.finish _ (GoResult.ok ()) (by decide) rfl) ?_
    exact ValidTrace.cons (Step.spawn _ rfl rfl rfl) (ValidTrace.nil _)
  exact h _ htr 2 (GoResult.ok ()) rfl rfl

/-- C9 (amended): every sleep of the scheduler lasts exactly
`waitSeconds interval` — the configured interval, defaulting to 10 seconds
when the configured value is ≤ 0 — the scheduler enters that sleep
immediately after spawning a cycle (concurrently with it, not after its
completion), and no further cycle can be spawned before such a sleep has
completed. -/
theorem scheduler_wait_between_cycles (interval : Int) (s : SchedState)
    (tr : List Event) (h : ValidTrace interval s tr) :
    (∀ (k d : Nat), tr[k]? = some (Event.sleepDone d) →
      d = waitSeconds interval) ∧
    (interval ≤ 0 → waitSeconds interval = 10) ∧
    (∀ s', Step interval s Event.spawnCycle s' → s'.schedSleeping = true) ∧
    (s.schedSleeping = true →
      ∀ j : Nat, tr[j]? = some Event.spawnCycle →
        ∃ k : Nat, k < j ∧
          tr[k]? = some (Event.sleepDone (waitSeconds interval))) := by
  refine ⟨?_, fun hle => by unfold waitSeconds; rw [if_pos hle], ?_, ?_⟩
  · induction h with
    | nil s => intro k d hk; simp at hk
    | cons hstep htr ih =>
      intro k d hk
      cases k with
      | zero =>
        cases hstep with
        | spawn h1 h2 h3 => simp at hk
        | sleep h1 h2 =>
          simp at hk
          omega
        | finish body h1 h2 => simp at hk
      | succ n =>
        exact ih n d (by simpa using hk)
  · intro s' hs'
    cases hs' with
    | spawn h1 h2 h3 => rfl
  · induction h with
    | nil s => intro _ j hj; simp at hj
    | cons hstep htr ih =>
      intro hs j hj
      cases hstep with
      | spawn h1 h2 h3 => simp [hs] at h2
      | sleep h1 h2 =>
        cases j with
        | zero => simp at hj
        | succ n =>
          refine ⟨0, by omega, ?_⟩
          simp
      | finish body h1 h2 =>
        cases j with
        | zero => simp at hj
        | succ n =>
          obtain ⟨k, hk1, hk2⟩ := ih hs n (by simpa using hj)
          exact ⟨k + 1, by omega, by simpa using hk2⟩

/-- Witness for the amended C9: with a configured interval of 0 the sleep
lasts the default 10 seconds. -/
theorem scheduler_wait_between_cycles_witness : waitSeconds 0 = 10 := by
  exact (scheduler_wait_between_cycles 0 initState [] (ValidTrace.nil _)).2.1
    (by decide)

end OTN
